import Mathlib

/-!
Verification of the navigation/history synchronization state machine of
`src/public/script.js` (client-side survey navigation).

The script is shallowly embedded: every global variable of the script
(`currentPage`, `historyStates`, `scrollPositions`, `bypassPopState`,
`dialogueFinished`, the DOM element variables) becomes a field of
`SurveyState`, together with the browser-owned resources the script reads
and writes (the session storage, the native history stack, the viewport
scroll offset and the CSS view flags). JavaScript numbers that can be NaN
are `Option Int` (`none` = NaN); fallible statements (property access on
`undefined`/`null`, `JSON.parse` of malformed text) return `Except JSError`.
The configuration constants at the top of the script (`totalPages`,
`chatbotPage`, `textareaReplacement`) are placeholders marked
"To be specified" in the source, so they are a parameter record here.
-/

/-- A JavaScript number restricted to the integral values this script
produces; `none` represents NaN (the result of `parseInt` on a
non-numeric string). -/
abbrev JSNum := Option Int

/-- JavaScript strict equality `===` on numbers: NaN is equal to nothing,
including itself. -/
def jsEqNum : JSNum → JSNum → Bool
  | some a, some b => a == b
  | _, _ => false

/-- JavaScript `<` on numbers: any comparison with NaN is false. -/
def jsLtNum : JSNum → JSNum → Bool
  | some a, some b => decide (a < b)
  | _, _ => false

/-- JavaScript `x - 1` (the `--` operator): NaN propagates. -/
def jsDec (x : JSNum) : JSNum := x.map (fun a => a - 1)

/-- JavaScript `x + 1` (the `++` operator): NaN propagates. -/
def jsInc (x : JSNum) : JSNum := x.map (fun a => a + 1)

/-- JavaScript `String(x)` for a number: decimal rendering, NaN prints
as "NaN". -/
def jsNumToString : JSNum → String
  | some n => toString n
  | none => "NaN"

/-- The numeric value of a decimal digit character, if it is one. -/
def digitVal : Char → Option Nat :=
  fun c => if '0' ≤ c ∧ c ≤ '9' then some (c.toNat - '0'.toNat) else none

/-- Consumes a run of decimal digits, folding them onto `acc`; returns the
value and the unconsumed rest. -/
def parseDigitsAux : List Char → Nat → Nat × List Char
  | [], acc => (acc, [])
  | c :: cs, acc =>
    match digitVal c with
    | some d => parseDigitsAux cs (10 * acc + d)
    | none => (acc, c :: cs)

/-- Parses a nonempty run of decimal digits from the front of the input. -/
def parseNatPrefix : List Char → Option (Nat × List Char)
  | [] => none
  | c :: cs =>
    match digitVal c with
    | some d => some (parseDigitsAux cs d)
    | none => none

/-- Parses an optionally signed decimal integer from the front of the
input. -/
def parseIntPrefix : List Char → Option (Int × List Char)
  | '-' :: cs => (parseNatPrefix cs).map (fun p => (-(p.1 : Int), p.2))
  | cs => (parseNatPrefix cs).map (fun p => ((p.1 : Int), p.2))

/-- JavaScript `parseInt(s, 10)`: skip leading whitespace, read an
optionally signed run of decimal digits, ignore any trailing characters;
NaN (`none`) when no digit is found. -/
def parseIntJS (s : String) : JSNum :=
  let cs := s.toList.dropWhile (fun c => c = ' ' ∨ c = '\t' ∨ c = '\n' ∨ c = '\r')
  match cs with
  | '+' :: cs2 => (parseNatPrefix cs2).map (fun p => (p.1 : Int))
  | '-' :: cs2 => (parseNatPrefix cs2).map (fun p => (-(p.1 : Int)))
  | _ => (parseNatPrefix cs).map (fun p => (p.1 : Int))

/-- One entry of the script's `historyStates` array (a `{page}` state
object); `page` is `none` when the stored number is NaN. -/
structure HistoryEntry where
  page : JSNum
deriving DecidableEq, Repr

/-- Output of `JSON.stringify` for one number stored in a state object:
NaN serializes as `null`. -/
def stringifyPage : JSNum → String
  | some n => toString n
  | none => "null"

/-- Output of `JSON.stringify` for one `{page}` object. -/
def stringifyEntry (e : HistoryEntry) : String :=
  "\x7b\"page\":" ++ stringifyPage e.page ++ "\x7d"

/-- Output of `JSON.stringify(historyStates)`. -/
def stringifyHistory (l : List HistoryEntry) : String :=
  "[" ++ String.intercalate "," (l.map stringifyEntry) ++ "]"

/-- Output of `JSON.stringify` for one key/value pair of the
`scrollPositions` object; the key is the page number's string form. -/
def stringifyScrollPair (p : JSNum × Int) : String :=
  "\"" ++ jsNumToString p.1 ++ "\":" ++ toString p.2

/-- Output of `JSON.stringify(scrollPositions)`. -/
def stringifyScroll (l : List (JSNum × Int)) : String :=
  "\x7b" ++ String.intercalate "," (l.map stringifyScrollPair) ++ "\x7d"

/-- Parses one serialized `{"page":N}` object, returning it and the rest
of the input. -/
def parseEntry : List Char → Option (HistoryEntry × List Char)
  | '\x7b' :: '"' :: 'p' :: 'a' :: 'g' :: 'e' :: '"' :: ':' :: rest =>
    match rest with
    | 'n' :: 'u' :: 'l' :: 'l' :: '\x7d' :: r => some (⟨none⟩, r)
    | _ =>
      match parseIntPrefix rest with
      | some (v, '\x7d' :: r) => some (⟨some v⟩, r)
      | _ => none
  | _ => none

/-- Parses the comma-separated entries of a serialized `historyStates`
array up to the closing bracket; the fuel is the input length. -/
def parseEntriesAux : Nat → List Char → List HistoryEntry → Option (List HistoryEntry)
  | 0, _, _ => none
  | Nat.succ fuel, cs, acc =>
    match parseEntry cs with
    | some (e, ',' :: r) => parseEntriesAux fuel r (acc ++ [e])
    | some (e, [']']) => some (acc ++ [e])
    | _ => none

/-- Models `JSON.parse` applied to a persisted `historyStates` string; it
accepts exactly the texts `JSON.stringify` produces for such arrays and
fails (`none` = a thrown SyntaxError) on anything else. -/
def parseHistoryJSON (s : String) : Option (List HistoryEntry) :=
  match s.toList with
  | ['[', ']'] => some []
  | '[' :: rest => parseEntriesAux rest.length rest []
  | _ => none

/-- Reads characters up to the next double quote; fails when the input has
no closing quote. -/
def spanToQuote : List Char → Option (List Char × List Char)
  | [] => none
  | '"' :: r => some ([], r)
  | c :: r => (spanToQuote r).map (fun p => (c :: p.1, p.2))

/-- Parses a full character list as a signed decimal integer. -/
def parseIntAll (cs : List Char) : Option Int :=
  match parseIntPrefix cs with
  | some (v, []) => some v
  | _ => none

/-- Parses one serialized `"key":value` pair of a `scrollPositions`
object; the key text is a page number's string form ("NaN" for NaN). -/
def parseScrollPair : List Char → Option ((JSNum × Int) × List Char)
  | '"' :: rest =>
    match spanToQuote rest with
    | some (keyCs, ':' :: r2) =>
      match
        (if keyCs = "NaN".toList then some (none : JSNum)
         else (parseIntAll keyCs).map (fun v => (some v : JSNum))) with
      | some k =>
        match parseIntPrefix r2 with
        | some (v, r3) => some ((k, v), r3)
        | none => none
      | none => none
    | _ => none
  | _ => none

/-- Parses the comma-separated pairs of a serialized `scrollPositions`
object up to the closing brace; the fuel is the input length. -/
def parseScrollAux : Nat → List Char → List (JSNum × Int) → Option (List (JSNum × Int))
  | 0, _, _ => none
  | Nat.succ fuel, cs, acc =>
    match parseScrollPair cs with
    | some (p, ',' :: r) => parseScrollAux fuel r (acc ++ [p])
    | some (p, ['\x7d']) => some (acc ++ [p])
    | _ => none

/-- Models `JSON.parse` applied to a persisted `scrollPositions` string;
it accepts exactly the texts `JSON.stringify` produces for such objects
and fails (`none` = a thrown SyntaxError) on anything else. -/
def parseScrollJSON (s : String) : Option (List (JSNum × Int)) :=
  match s.toList with
  | ['\x7b', '\x7d'] => some []
  | '\x7b' :: rest => parseScrollAux rest.length rest []
  | _ => none

/-- The configuration constants declared at the top of the script; the
source file holds placeholder values ("To be specified"), so the model
quantifies over them. -/
structure SurveyConfig where
  totalPages : Int
  chatbotPage : Int
  textareaReplacement : Bool
deriving DecidableEq, Repr

/-- The session-scoped key/value store, restricted to the keys this part
of the script uses; `none` means the key is absent (`getItem` returns
null). The metadata keys (participantId, treatmentGroup) are disjoint
from navigation state and are not modelled. -/
structure SessionStore where
  currentPage : Option String
  historyStates : Option String
  scrollPositions : Option String
  dialogueFinished : Option String
deriving DecidableEq, Repr

/-- The browser's native history stack as this script can affect it:
`entries` are the states of the entries up to the current one (`none` is
the auto-created first entry, whose state is null before `replaceState`
runs); `backCount` counts the `history.back()` calls the script has
issued (each asks the browser for one asynchronous back step, which
arrives later as a popstate event). -/
structure NativeHistory where
  entries : List (Option HistoryEntry)
  backCount : Nat
deriving DecidableEq, Repr

/-- One popstate event: `state` is the state object of the history entry
the browser moved to (null — `none` — for an entry that never received a
state object). -/
structure PopStateEvent where
  state : Option HistoryEntry
deriving DecidableEq, Repr

/-- A thrown JavaScript exception: `typeError` for property access on
undefined/null, `syntaxError` for `JSON.parse` of malformed text. -/
inductive JSError
  | typeError
  | syntaxError
deriving DecidableEq, Repr

/-- The whole mutable state the script touches: its global variables, the
DOM pieces it reads or writes (reduced to the booleans the claims need),
the session storage and the native history. `consentCheckbox` is the
script's element variable: `none` while the variable is `undefined`,
`some b` once it refers to a checkbox whose checked state is `b`.
`scrollPositions` is the script's object, keyed by the page number whose
string form names the property (NaN keys collapse to the single "NaN"
property, matching `Option Int`). `pendingScroll` stands for a scheduled
deferred smooth scroll (the two animation frames plus timeout);
`displayedPage` is the page whose element carries the `active` class. -/
structure SurveyState where
  currentPage : JSNum
  historyStates : List HistoryEntry
  scrollPositions : List (JSNum × Int)
  bypassPopState : Bool
  dialogueFinished : Bool
  consentCheckbox : Option Bool
  pagesReferenced : Bool
  popstateAttached : Bool
  displayedPage : JSNum
  scrollY : Int
  pendingScroll : Option Int
  chatbotInterfacePresent : Bool
  chatbotViewOpen : Bool
  finishedViewShown : Bool
  store : SessionStore
  native : NativeHistory
deriving DecidableEq, Repr

/-- JavaScript `obj[k] = v` on the scroll-positions object: overwrite the
existing property or append a new one. -/
def jsObjSet : List (JSNum × Int) → JSNum → Int → List (JSNum × Int)
  | [], k, v => [(k, v)]
  | (k', v') :: rest, k, v =>
    if k' = k then (k, v) :: rest else (k', v') :: jsObjSet rest k v

/-- JavaScript `obj[k]` on the scroll-positions object: `none` is
`undefined`. -/
def jsObjGet : List (JSNum × Int) → JSNum → Option Int
  | [], _ => none
  | (k', v') :: rest, k => if k' = k then some v' else jsObjGet rest k

/-- The script's initial state at load time (lines 44-55): the globals'
initial values, with `dialogueFinished` read from the session storage;
no element variable is assigned yet, no listener attached, and the
browser supplies one auto-created history entry with a null state. -/
def initialState (store : SessionStore) : SurveyState where
  currentPage := some 1
  historyStates := []
  scrollPositions := []
  bypassPopState := false
  dialogueFinished := store.dialogueFinished == some "true"
  consentCheckbox := none
  pagesReferenced := false
  popstateAttached := false
  displayedPage := none
  scrollY := 0
  pendingScroll := none
  chatbotInterfacePresent := true
  chatbotViewOpen := false
  finishedViewShown := false
  store := store
  native := { entries := [none], backCount := 0 }

/-- `referenceElements()` (lines 100-103): assigns the `pages` node list
and nothing else — the declared `progressBar`, `consentCheckbox` and
`next1` variables are never assigned anywhere in the script. -/
def referenceElements (s : SurveyState) : SurveyState :=
  { s with pagesReferenced := true }

/-- `saveNavigationState()` (lines 319-322): writes `currentPage` (via
`String(...)` coercion) and `JSON.stringify(historyStates)` to the
session storage. -/
def saveNavigationState (s : SurveyState) : SurveyState :=
  { s with store :=
      { s.store with
          currentPage := some (jsNumToString s.currentPage)
          historyStates := some (stringifyHistory s.historyStates) } }

/-- `saveScrollPositions(pageNumber)` (lines 335-341): reads the viewport
offset and, unless the internal `currentPage` (not the argument!) equals
`chatbotPage`, records it under `pageNumber` and persists the scroll
map. -/
def saveScrollPositions (cfg : SurveyConfig) (s : SurveyState) (pageNumber : JSNum) :
    SurveyState :=
  let scrollY := s.scrollY
  if !(jsEqNum s.currentPage (some cfg.chatbotPage)) then
    let sp := jsObjSet s.scrollPositions pageNumber scrollY
    { s with
        scrollPositions := sp
        store := { s.store with scrollPositions := some (stringifyScroll sp) } }
  else s

/-- `setFinishedDialogueState()` (lines 356-372): switches the bottom of
the chatbot interface between the input view and the finished view; the
css-class flips are reduced to the `finishedViewShown` flag. -/
def setFinishedDialogueState (cfg : SurveyConfig) (s : SurveyState) : SurveyState :=
  if !cfg.textareaReplacement then { s with finishedViewShown := false }
  else if !s.dialogueFinished then { s with finishedViewShown := false }
  else { s with finishedViewShown := true }

/-- `handleFinishedDialogue()` (lines 252-256): sets the flag, persists
it and updates the finished sub-view. -/
def handleFinishedDialogue (cfg : SurveyConfig) (s : SurveyState) : SurveyState :=
  let s1 := { s with
      dialogueFinished := true
      store := { s.store with dialogueFinished := some "true" } }
  setFinishedDialogueState cfg s1

/-- `applyChatbotViewState()` (lines 204-238): returns silently when the
chatbot containers are missing, otherwise switches to the chatbot view
exactly when the global `currentPage` equals `chatbotPage`; the css-class
flips, the mobile timeout and the dispatched event are reduced to the
`chatbotViewOpen` flag. -/
def applyChatbotViewState (cfg : SurveyConfig) (s : SurveyState) : SurveyState :=
  if !s.chatbotInterfacePresent then s
  else if jsEqNum s.currentPage (some cfg.chatbotPage) then
    { s with chatbotViewOpen := true }
  else
    { s with chatbotViewOpen := false }

/-- `cancelScrollDelays()` (lines 177-186): clears the queued animation
frames, i.e. any pending deferred scroll. -/
def cancelScrollDelays (s : SurveyState) : SurveyState :=
  { s with pendingScroll := none }

/-- `showPage(pageNumber)` (lines 140-167): cancels pending scrolls,
moves the `active` class to the requested page's element (throwing when
no such element exists — the document holds elements for pages
1..totalPages only), applies the chatbot view state when within one page
of `chatbotPage`, and restores scroll: a recorded offset becomes a
deferred smooth scroll, otherwise the viewport jumps to the top; the
chatbot page is excluded from scroll handling. -/
def showPage (cfg : SurveyConfig) (s : SurveyState) (pageNumber : JSNum) :
    Except JSError SurveyState :=
  let s0 := cancelScrollDelays s
  match pageNumber with
  | none => .error .typeError
  | some n =>
    if 1 ≤ n ∧ n ≤ cfg.totalPages then
      let s1 := { s0 with displayedPage := some n }
      let s2 :=
        if decide (cfg.chatbotPage - 1 ≤ n) && decide (n ≤ cfg.chatbotPage + 1) then
          applyChatbotViewState cfg s1
        else s1
      if jsEqNum (some n) (some cfg.chatbotPage) then .ok s2
      else
        match jsObjGet s2.scrollPositions (some n) with
        | some pos => .ok { s2 with pendingScroll := some pos }
        | none => .ok { s2 with scrollY := 0 }
    else .error .typeError

/-- `initializeHistory(page)` (lines 425-430): builds the `{page}` state
object, appends it to `historyStates` unless some entry's page strictly
equals the global `currentPage`, replaces the current native history
entry's state, and persists. -/
def initializeHistory (s : SurveyState) (page : JSNum) : SurveyState :=
  let stateObj : HistoryEntry := { page := page }
  let s1 :=
    if !(s.historyStates.any (fun obj => jsEqNum obj.page s.currentPage)) then
      { s with historyStates := s.historyStates ++ [stateObj] }
    else s
  let s2 := { s1 with native :=
      { s1.native with entries := s1.native.entries.dropLast ++ [some stateObj] } }
  saveNavigationState s2

/-- `pushPageToHistory(page)` (lines 443-448): appends the `{page}` state
object to `historyStates`, pushes a new native history entry carrying it,
and persists. -/
def pushPageToHistory (s : SurveyState) (page : JSNum) : SurveyState :=
  let stateObj : HistoryEntry := { page := page }
  let s1 := { s with historyStates := s.historyStates ++ [stateObj] }
  let s2 := { s1 with native :=
      { s1.native with entries := s1.native.entries ++ [some stateObj] } }
  saveNavigationState s2

/-- The effect of `window.history.back()`: one asynchronous back step is
requested from the browser (its later popstate event is an input to this
model, so only the request is recorded). -/
def historyBack (h : NativeHistory) : NativeHistory :=
  { h with backCount := h.backCount + 1 }

/-- The tail of `handlePopState` after the consent gate (lines 488-505):
the terminal branch detaches the listener and requests one back step;
the default branch captures scroll for the page being left, moves
`currentPage` one step toward the event's page, shows it and persists.
The source reaches this code by falling through its gate `if`; it is
factored out here because that fall-through has two entry points. -/
def handlePopStateRest (cfg : SurveyConfig) (s : SurveyState) (ev : PopStateEvent) :
    Except JSError SurveyState :=
  if jsEqNum s.currentPage (some cfg.totalPages) then
    .ok { s with popstateAttached := false, native := historyBack s.native }
  else
    match ev.state with
    | none => .error .typeError
    | some stob =>
      if jsLtNum stob.page s.currentPage then
        let s1 := saveScrollPositions cfg s s.currentPage
        let s2 := { s1 with currentPage := jsDec s1.currentPage }
        (showPage cfg s2 s2.currentPage).map saveNavigationState
      else
        let s1 := saveScrollPositions cfg s s.currentPage
        let s2 := { s1 with currentPage := jsInc s1.currentPage }
        (showPage cfg s2 s2.currentPage).map saveNavigationState

/-- `handlePopState(event)` (lines 472-506): consume a pending bypass;
otherwise read `consentCheckbox.checked` (a TypeError when the variable
was never assigned), apply the page-1 consent gate (whose condition
short-circuits, so `event.state` is only dereferenced when
`currentPage === 1`), then the terminal branch and the default branch. -/
def handlePopState (cfg : SurveyConfig) (s : SurveyState) (ev : PopStateEvent) :
    Except JSError SurveyState :=
  if s.bypassPopState then
    .ok { s with bypassPopState := false }
  else
    match s.consentCheckbox with
    | none => .error .typeError
    | some consentIsChecked =>
      if jsEqNum s.currentPage (some 1) then
        match ev.state with
        | none => .error .typeError
        | some stob =>
          if jsEqNum stob.page (some 2) && !consentIsChecked then
            .ok { s with bypassPopState := true, native := historyBack s.native }
          else handlePopStateRest cfg s ev
      else handlePopStateRest cfg s ev

/-- The browser's popstate dispatch: the handler runs only while the
listener is attached (`attachEventListeners` adds it, the terminal branch
removes it). -/
def dispatchPopState (cfg : SurveyConfig) (s : SurveyState) (ev : PopStateEvent) :
    Except JSError SurveyState :=
  if s.popstateAttached then handlePopState cfg s ev else .ok s

/-- `attachEventListeners()` (lines 114-121): attaches the popstate
handler (the beforeunload capture is a separate input in this model). -/
def attachEventListeners (s : SurveyState) : SurveyState :=
  { s with popstateAttached := true }

/-- `restoreState()` steps two and three: `JSON.parse` of the persisted
history stack, a thrown SyntaxError when malformed; skipped when the key
is absent or empty (falsy). -/
def restoreHistoryStep (s : SurveyState) : Except JSError SurveyState :=
  match s.store.historyStates with
  | some hs =>
    if hs = "" then .ok s
    else
      match parseHistoryJSON hs with
      | some h => .ok { s with historyStates := h }
      | none => .error .syntaxError
  | none => .ok s

/-- `restoreState()` scroll-positions step, analogous to the history
step. -/
def restoreScrollStep (s : SurveyState) : Except JSError SurveyState :=
  match s.store.scrollPositions with
  | some ss =>
    if ss = "" then .ok s
    else
      match parseScrollJSON ss with
      | some sp => .ok { s with scrollPositions := sp }
      | none => .error .syntaxError
  | none => .ok s

/-- `restoreState()` first step: restore `currentPage` via `parseInt`
when the key holds a non-empty (truthy) string. -/
def restorePageStep (s : SurveyState) : SurveyState :=
  match s.store.currentPage with
  | some sp => if sp = "" then s else { s with currentPage := parseIntJS sp }
  | none => s

/-- `restoreState()` (lines 387-404): restore `currentPage`, then the
history stack and the scroll map via `JSON.parse` (each only when its
key holds a non-empty string, each throwing on malformed text), then
refresh the finished sub-view. -/
def restoreState (cfg : SurveyConfig) (s : SurveyState) : Except JSError SurveyState :=
  let s1 := restorePageStep s
  match restoreHistoryStep s1 with
  | .error e => .error e
  | .ok s2 =>
    match restoreScrollStep s2 with
    | .error e => .error e
    | .ok s3 => .ok (setFinishedDialogueState cfg s3)

/-- `initializePage()` (lines 82-93): reference the DOM elements, restore
the persisted state, initialize the native history entry, show the
current page and attach the listeners. The metadata fetch (participantId
and treatmentGroup) touches only storage keys disjoint from navigation
state and is elided. -/
def initializePage (cfg : SurveyConfig) (store : SessionStore) :
    Except JSError SurveyState :=
  let s0 := referenceElements (initialState store)
  match restoreState cfg s0 with
  | .error e => .error e
  | .ok s1 =>
    let s2 := initializeHistory s1 s1.currentPage
    match showPage cfg s2 s2.currentPage with
    | .error e => .error e
    | .ok s3 => .ok (attachEventListeners s3)

/-- Runs a sequence of first-visit forward navigations through
`pushPageToHistory`. -/
def pushSeq (s : SurveyState) : List JSNum → SurveyState
  | [] => s
  | p :: ps => pushSeq (pushPageToHistory s p) ps

/-- The precondition of the single-append claim: every page in the
sequence is not yet present in `historyStates` at the moment it is
pushed. -/
def FreshSeq (s : SurveyState) : List JSNum → Prop
  | [] => True
  | p :: ps => p ∉ s.historyStates.map HistoryEntry.page ∧
      FreshSeq (pushPageToHistory s p) ps

instance instDecFreshSeq : ∀ s ps, Decidable (FreshSeq s ps)
  | _, [] => .isTrue trivial
  | s, p :: ps =>
    have : Decidable (FreshSeq (pushPageToHistory s p) ps) :=
      instDecFreshSeq (pushPageToHistory s p) ps
    instDecidableAnd

deriving instance DecidableEq for Except

/-- A configuration with three pages and the chatbot on page 2, as in the
documented scenario. -/
def cfgA : SurveyConfig where
  totalPages := 3
  chatbotPage := 2
  textareaReplacement := false

/-- The same configuration with one more page after the chatbot flow, so
that page 3 is not the terminal page. -/
def cfgB : SurveyConfig where
  totalPages := 4
  chatbotPage := 2
  textareaReplacement := false

/-- A fresh session: no persisted keys. -/
def storeEmpty : SessionStore where
  currentPage := none
  historyStates := none
  scrollPositions := none
  dialogueFinished := none

/-- A persisted store whose history-stack string is not valid serialized
data. -/
def storeMalformed : SessionStore where
  currentPage := none
  historyStates := some "\x7b"
  scrollPositions := none
  dialogueFinished := none

/-- A persisted store from an earlier visit that reached page 2: the
shape a reload sees. -/
def storeReload : SessionStore where
  currentPage := some "2"
  historyStates := some "[\x7b\"page\":1\x7d,\x7b\"page\":2\x7d]"
  scrollPositions := some "\x7b\x7d"
  dialogueFinished := none

/-- The state of the documented scenario just before the back presses:
consent was checked on page 1, pages 1, 2, 3 were visited in order via
first-visit pushes, page 3 is displayed. -/
def scenarioState : SurveyState where
  currentPage := some 3
  historyStates := [⟨some 1⟩, ⟨some 2⟩, ⟨some 3⟩]
  scrollPositions := []
  bypassPopState := false
  dialogueFinished := false
  consentCheckbox := some true
  pagesReferenced := true
  popstateAttached := true
  displayedPage := some 3
  scrollY := 0
  pendingScroll := none
  chatbotInterfacePresent := true
  chatbotViewOpen := false
  finishedViewShown := false
  store :=
    { currentPage := some "3"
      historyStates := some (stringifyHistory [⟨some 1⟩, ⟨some 2⟩, ⟨some 3⟩])
      scrollPositions := none
      dialogueFinished := none }
  native :=
    { entries := [some ⟨some 1⟩, some ⟨some 2⟩, some ⟨some 3⟩], backCount := 0 }

/-- The scenario state while the user is still on page 1 with the consent
checkbox present but unchecked. -/
def gateState : SurveyState :=
  { scenarioState with
      currentPage := some 1
      displayedPage := some 1
      consentCheckbox := some false }

/-- The scenario state with a pending bypass. -/
def bypassState : SurveyState :=
  { scenarioState with bypassPopState := true }

/-- The scenario state after the terminal branch: handler detached, one
back step requested. -/
def lockedState : SurveyState :=
  { scenarioState with popstateAttached := false, native := historyBack scenarioState.native }

/-- A popstate event whose entry carries page 2. -/
def evTo2 : PopStateEvent where
  state := some ⟨some 2⟩

/-- A popstate event whose entry carries page 1. -/
def evTo1 : PopStateEvent where
  state := some ⟨some 1⟩

/-- A state whose current page (1) sits in `historyStates` but is not its
most recent entry. -/
def dupState : SurveyState :=
  { scenarioState with currentPage := some 1, historyStates := [⟨some 1⟩, ⟨some 2⟩] }

/-- The scenario state back on page 1 with a scrolled viewport. -/
def offPageState : SurveyState :=
  { scenarioState with currentPage := some 1, displayedPage := some 1, scrollY := 40 }

/-- A state before any page was visited: empty history mirror, only the
browser's auto-created native entry. -/
def freshStart : SurveyState :=
  { scenarioState with
      currentPage := some 1
      displayedPage := some 1
      historyStates := []
      native := { entries := [none], backCount := 0 } }

/-- The state `initializePage` produces from a fresh session under
`cfgA`: page 1 shown, one history entry, listener attached — and the
`consentCheckbox` variable still unassigned. -/
def initRunState : SurveyState where
  currentPage := some 1
  historyStates := [⟨some 1⟩]
  scrollPositions := []
  bypassPopState := false
  dialogueFinished := false
  consentCheckbox := none
  pagesReferenced := true
  popstateAttached := true
  displayedPage := some 1
  scrollY := 0
  pendingScroll := none
  chatbotInterfacePresent := true
  chatbotViewOpen := false
  finishedViewShown := false
  store :=
    { currentPage := some "1"
      historyStates := some "[\x7b\"page\":1\x7d]"
      scrollPositions := none
      dialogueFinished := none }
  native := { entries := [some ⟨some 1⟩], backCount := 0 }

/-- C9: an event arriving while the bypass flag is set only clears the
flag: the store, the page state, the native history and the display are
untouched, and the cleared flag means the next event is not bypassed. -/
theorem bypass_consumes_one_event (cfg : SurveyConfig) (s : SurveyState)
    (ev : PopStateEvent) (h : s.bypassPopState = true) :
    handlePopState cfg s ev = .ok { s with bypassPopState := false } := by
  unfold handlePopState
  rw [h]
  simp

/-- Witness for C9 at the scenario state with a pending bypass. -/
theorem bypass_consumes_one_event_witness :
    handlePopState cfgA bypassState evTo2 = .ok { bypassState with bypassPopState := false } :=
  bypass_consumes_one_event cfgA bypassState evTo2 rfl

/-- C2: on page 1 with the consent condition false, an external event
whose entry carries page 2 sets the bypass flag, requests exactly one
programmatic back step, and changes nothing else — the internal current
page is still 1 and the displayed page is unchanged. -/
theorem consent_gate_blocks_page_two (cfg : SurveyConfig) (s : SurveyState)
    (ev : PopStateEvent) (stob : HistoryEntry)
    (hb : s.bypassPopState = false)
    (hc : s.consentCheckbox = some false)
    (hp : s.currentPage = some 1)
    (hev : ev.state = some stob)
    (ht : stob.page = some 2) :
    handlePopState cfg s ev =
      .ok { s with bypassPopState := true, native := historyBack s.native } := by
  simp [handlePopState, hb, hc, hp, hev, ht, jsEqNum]

/-- Witness for C2 at the page-1 scenario state with consent unchecked. -/
theorem consent_gate_blocks_page_two_witness :
    handlePopState cfgA gateState evTo2 =
      .ok { gateState with bypassPopState := true, native := historyBack gateState.native } :=
  consent_gate_blocks_page_two cfgA gateState evTo2 ⟨some 2⟩ rfl rfl rfl rfl rfl

/-- C1: an external event arriving while the internal current page equals
`totalPages` (for a survey of more than one page, with the consent
checkbox readable) detaches the handler, requests exactly one
programmatic back step and leaves the current page, `historyStates` and
the displayed page unchanged; every later event dispatched to the
detached state is a no-op. -/
theorem terminal_lock (cfg : SurveyConfig) (s : SurveyState) (ev : PopStateEvent)
    (c : Bool)
    (hb : s.bypassPopState = false)
    (hc : s.consentCheckbox = some c)
    (hp : s.currentPage = some cfg.totalPages)
    (htp : 1 < cfg.totalPages) :
    handlePopState cfg s ev =
      .ok { s with popstateAttached := false, native := historyBack s.native } ∧
    ∀ ev2 : PopStateEvent,
      dispatchPopState cfg
          { s with popstateAttached := false, native := historyBack s.native } ev2 =
        .ok { s with popstateAttached := false, native := historyBack s.native } := by
  have hne : cfg.totalPages ≠ 1 := by omega
  have h1 : jsEqNum s.currentPage (some 1) = false := by
    rw [hp]
    simp [jsEqNum, hne]
  have h2 : jsEqNum s.currentPage (some cfg.totalPages) = true := by
    rw [hp]
    simp [jsEqNum]
  constructor
  · simp [handlePopState, handlePopStateRest, hb, hc, h1, h2]
  · intro ev2
    simp [dispatchPopState]

/-- Witness for C1 at the scenario state on the terminal page. -/
theorem terminal_lock_witness :
    handlePopState cfgA scenarioState evTo2 = .ok lockedState ∧
    ∀ ev2 : PopStateEvent, dispatchPopState cfgA lockedState ev2 = .ok lockedState :=
  terminal_lock cfgA scenarioState evTo2 true rfl rfl rfl (by decide)

/-- Looking a key up after a JavaScript property write: the written key
returns the new value, every other key is unaffected. -/
theorem jsObjGet_jsObjSet (l : List (JSNum × Int)) (k q : JSNum) (v : Int) :
    jsObjGet (jsObjSet l k v) q = if k = q then some v else jsObjGet l q := by
  induction l with
  | nil => simp [jsObjSet, jsObjGet]
  | cons p rest ih =>
    obtain ⟨k', v'⟩ := p
    by_cases hk : k' = k
    · subst hk
      simp only [jsObjSet, jsObjGet, if_pos rfl]
      split <;> simp [*]
    · simp only [jsObjSet, jsObjGet, if_neg hk]
      by_cases hq : k' = q
      · subst hq
        have : ¬ k = k' := fun h => hk h.symm
        simp [jsObjGet, this]
      · simp [jsObjGet, hq, ih]

/-- C8 (amended): `initializeHistory` appends `{page}` exactly when no
entry of `historyStates` strictly equals the internal current page (the
membership test inspects the whole array and compares against
`currentPage`, which equals the argument at the one call site); the
native history entry is replaced in place — same stack height, no push —
and both keys are persisted afterward. -/
theorem initializeHistory_spec (s : SurveyState) (page : JSNum)
    (hne : s.native.entries ≠ []) :
    (initializeHistory s page).historyStates =
      (if s.historyStates.any (fun obj => jsEqNum obj.page s.currentPage)
       then s.historyStates else s.historyStates ++ [⟨page⟩]) ∧
    (initializeHistory s page).native.entries =
      s.native.entries.dropLast ++ [some ⟨page⟩] ∧
    (initializeHistory s page).native.entries.length = s.native.entries.length ∧
    (initializeHistory s page).native.backCount = s.native.backCount ∧
    (initializeHistory s page).store.currentPage = some (jsNumToString s.currentPage) ∧
    (initializeHistory s page).store.historyStates =
      some (stringifyHistory (initializeHistory s page).historyStates) := by
  have hpos : 0 < s.native.entries.length := List.length_pos.mpr hne
  cases hany : s.historyStates.any (fun obj => jsEqNum obj.page s.currentPage) <;>
    refine ⟨?_, ?_, ?_, ?_, ?_, ?_⟩ <;>
      simp [initializeHistory, saveNavigationState, hany, List.length_dropLast] <;>
        omega

/-- Witness for C8's amended statement at the scenario state. -/
theorem initializeHistory_spec_witness :
    (initializeHistory scenarioState (some 3)).historyStates =
      (if scenarioState.historyStates.any
          (fun obj => jsEqNum obj.page scenarioState.currentPage)
       then scenarioState.historyStates else scenarioState.historyStates ++ [⟨some 3⟩]) ∧
    (initializeHistory scenarioState (some 3)).native.entries =
      scenarioState.native.entries.dropLast ++ [some ⟨some 3⟩] ∧
    (initializeHistory scenarioState (some 3)).native.entries.length =
      scenarioState.native.entries.length ∧
    (initializeHistory scenarioState (some 3)).native.backCount =
      scenarioState.native.backCount ∧
    (initializeHistory scenarioState (some 3)).store.currentPage =
      some (jsNumToString scenarioState.currentPage) ∧
    (initializeHistory scenarioState (some 3)).store.historyStates =
      some (stringifyHistory (initializeHistory scenarioState (some 3)).historyStates) :=
  initializeHistory_spec scenarioState (some 3) (by decide)

/-- C8 counterexample: with `historyStates = [{1},{2}]` and current page
1, page 1 is not the most recent entry, yet `initializeHistory` does not
append — the claim's "most recent entry" test is not what the code
checks. -/
theorem initializeHistory_counterexample :
    ¬ (((initializeHistory dupState (some 1)).historyStates =
          dupState.historyStates ++ [⟨some 1⟩]) ↔
        dupState.historyStates.getLast? ≠ some ⟨some 1⟩) := by
  decide

/-- C10 (amended): at its call sites the capture argument is always the
internal current page; with that argument the recorded offset lands under
the current page and is persisted, nothing happens when the current page
is the chatbot page (the code's guard reads `currentPage`, not the
argument), and a scroll map without a chatbot-page entry keeps having
none. -/
theorem saveScrollPositions_spec (cfg : SurveyConfig) (s : SurveyState) :
    (jsEqNum s.currentPage (some cfg.chatbotPage) = true →
      saveScrollPositions cfg s s.currentPage = s) ∧
    (jsEqNum s.currentPage (some cfg.chatbotPage) = false →
      (saveScrollPositions cfg s s.currentPage).scrollPositions =
        jsObjSet s.scrollPositions s.currentPage s.scrollY ∧
      (saveScrollPositions cfg s s.currentPage).store.scrollPositions =
        some (stringifyScroll (jsObjSet s.scrollPositions s.currentPage s.scrollY)) ∧
      (jsObjGet s.scrollPositions (some cfg.chatbotPage) = none →
        jsObjGet (saveScrollPositions cfg s s.currentPage).scrollPositions
          (some cfg.chatbotPage) = none)) := by
  constructor
  · intro h
    simp [saveScrollPositions, h]
  · intro h
    have hkey : s.currentPage ≠ some cfg.chatbotPage := by
      intro he
      rw [he] at h
      simp [jsEqNum] at h
    refine ⟨?_, ?_, ?_⟩
    · simp [saveScrollPositions, h]
    · simp [saveScrollPositions, h]
    · intro hnone
      simp [saveScrollPositions, h, jsObjGet_jsObjSet, hkey, hnone]

/-- Witness for C10's amended statement: on page 1 (not the chatbot
page) the offset 40 is recorded under page 1 and persisted, and no
chatbot-page entry appears. -/
theorem saveScrollPositions_spec_witness :
    (saveScrollPositions cfgA offPageState offPageState.currentPage).scrollPositions =
      jsObjSet offPageState.scrollPositions offPageState.currentPage offPageState.scrollY ∧
    (saveScrollPositions cfgA offPageState offPageState.currentPage).store.scrollPositions =
      some (stringifyScroll
        (jsObjSet offPageState.scrollPositions offPageState.currentPage
          offPageState.scrollY)) ∧
    (jsObjGet offPageState.scrollPositions (some cfgA.chatbotPage) = none →
      jsObjGet (saveScrollPositions cfgA offPageState offPageState.currentPage).scrollPositions
        (some cfgA.chatbotPage) = none) :=
  (saveScrollPositions_spec cfgA offPageState).2 (by decide)

/-- C10 counterexample: calling `saveScrollPositions` with the chatbot
page as argument while the current page is 1 does write a scroll entry
for the chatbot page — the guard reads `currentPage`, not the claim's
`pageId`. -/
theorem saveScrollPositions_counterexample :
    (saveScrollPositions cfgA offPageState (some cfgA.chatbotPage)).scrollPositions =
      [(some 2, 40)] := by
  decide

/-- C7 (amended): when every persisted value is missing, restoration
completes without failing and the compiled-in defaults stand: page 1,
empty history, empty scroll map, unfinished dialogue. (Malformed
serialized text is not handled: see the counterexample.) -/
theorem restoreState_missing_defaults (cfg : SurveyConfig) :
    restoreState cfg (referenceElements (initialState storeEmpty)) =
      .ok (referenceElements (initialState storeEmpty)) ∧
    (referenceElements (initialState storeEmpty)).currentPage = some 1 ∧
    (referenceElements (initialState storeEmpty)).historyStates = [] ∧
    (referenceElements (initialState storeEmpty)).scrollPositions = [] ∧
    (referenceElements (initialState storeEmpty)).dialogueFinished = false := by
  refine ⟨?_, by decide, by decide, by decide, by decide⟩
  obtain ⟨tp, cb, tr⟩ := cfg
  cases tr <;> rfl

/-- C7 counterexample: a persisted history-stack string that is not valid
serialized data makes `restoreState` throw (`JSON.parse` has no handler),
rather than fall back to a default. -/
theorem restoreState_malformed_counterexample :
    restoreState cfgA (referenceElements (initialState storeMalformed)) =
      .error .syntaxError := by
  decide

/-- Each push appends exactly one `historyStates` entry. -/
theorem pushPageToHistory_historyStates (s : SurveyState) (p : JSNum) :
    (pushPageToHistory s p).historyStates = s.historyStates ++ [⟨p⟩] := rfl

/-- Each push appends exactly one native history entry. -/
theorem pushPageToHistory_native (s : SurveyState) (p : JSNum) :
    (pushPageToHistory s p).native.entries = s.native.entries ++ [some ⟨p⟩] := rfl

/-- A fresh-pages push sequence grows `historyStates` and the native
stack by one entry per call and keeps the page values duplicate-free. -/
theorem pushSeq_spec (ps : List JSNum) (s : SurveyState)
    (hfresh : FreshSeq s ps)
    (hnodup : (s.historyStates.map HistoryEntry.page).Nodup) :
    ((pushSeq s ps).historyStates.map HistoryEntry.page).Nodup ∧
    (pushSeq s ps).historyStates.length = s.historyStates.length + ps.length ∧
    (pushSeq s ps).native.entries.length = s.native.entries.length + ps.length := by
  induction ps generalizing s with
  | nil => exact ⟨hnodup, by simp [pushSeq], by simp [pushSeq]⟩
  | cons p ps ih =>
    obtain ⟨hp, hrest⟩ := hfresh
    have hnd : ((pushPageToHistory s p).historyStates.map HistoryEntry.page).Nodup := by
      rw [pushPageToHistory_historyStates]
      simp only [List.map_append, List.map_cons, List.map_nil]
      rw [List.nodup_append]
      refine ⟨hnodup, List.nodup_singleton _, ?_⟩
      intro a ha hb
      simp only [List.mem_singleton] at hb
      subst hb
      exact hp ha
    obtain ⟨h1, h2, h3⟩ := ih (pushPageToHistory s p) hrest hnd
    refine ⟨by simpa [pushSeq] using h1, ?_, ?_⟩
    · rw [show pushSeq s (p :: ps) = pushSeq (pushPageToHistory s p) ps from rfl, h2,
        pushPageToHistory_historyStates]
      simp
      omega
    · rw [show pushSeq s (p :: ps) = pushSeq (pushPageToHistory s p) ps from rfl, h3,
        pushPageToHistory_native]
      simp
      omega

/-- C3: one `pushPageToHistory` call appends exactly one entry to
`historyStates` and exactly one native history entry; and along any
sequence of calls on not-yet-present pages, starting from a
duplicate-free mirror, the length grows by exactly one per call and
every page value appears at most once afterwards. -/
theorem pushNewPage_single_append (s : SurveyState) (p : JSNum) (ps : List JSNum)
    (hfresh : FreshSeq s ps)
    (hnodup : (s.historyStates.map HistoryEntry.page).Nodup) :
    (pushPageToHistory s p).historyStates.length = s.historyStates.length + 1 ∧
    (pushPageToHistory s p).native.entries = s.native.entries ++ [some ⟨p⟩] ∧
    ((pushSeq s ps).historyStates.map HistoryEntry.page).Nodup ∧
    (pushSeq s ps).historyStates.length = s.historyStates.length + ps.length ∧
    (pushSeq s ps).native.entries.length = s.native.entries.length + ps.length := by
  obtain ⟨h1, h2, h3⟩ := pushSeq_spec ps s hfresh hnodup
  refine ⟨?_, pushPageToHistory_native s p, h1, h2, h3⟩
  rw [pushPageToHistory_historyStates]
  simp

/-- Witness for C3: pushing pages 1, 2, 3 from the fresh start. -/
theorem pushNewPage_single_append_witness :
    (pushPageToHistory freshStart (some 1)).historyStates.length =
      freshStart.historyStates.length + 1 ∧
    (pushPageToHistory freshStart (some 1)).native.entries =
      freshStart.native.entries ++ [some ⟨some 1⟩] ∧
    ((pushSeq freshStart [some 1, some 2, some 3]).historyStates.map
      HistoryEntry.page).Nodup ∧
    (pushSeq freshStart [some 1, some 2, some 3]).historyStates.length =
      freshStart.historyStates.length + [some 1, some 2, some 3].length ∧
    (pushSeq freshStart [some 1, some 2, some 3]).native.entries.length =
      freshStart.native.entries.length + [some 1, some 2, some 3].length :=
  pushNewPage_single_append freshStart (some 1) [some 1, some 2, some 3]
    (by decide) (by decide)

/-- Capturing scroll touches only the scroll map and its persisted key. -/
theorem saveScrollPositions_frame (cfg : SurveyConfig) (s : SurveyState) (p : JSNum) :
    (saveScrollPositions cfg s p).currentPage = s.currentPage ∧
    (saveScrollPositions cfg s p).historyStates = s.historyStates ∧
    (saveScrollPositions cfg s p).native = s.native ∧
    (saveScrollPositions cfg s p).bypassPopState = s.bypassPopState ∧
    (saveScrollPositions cfg s p).consentCheckbox = s.consentCheckbox ∧
    (saveScrollPositions cfg s p).popstateAttached = s.popstateAttached ∧
    (saveScrollPositions cfg s p).displayedPage = s.displayedPage ∧
    (saveScrollPositions cfg s p).store.currentPage = s.store.currentPage ∧
    (saveScrollPositions cfg s p).store.historyStates = s.store.historyStates := by
  unfold saveScrollPositions
  split <;> simp

/-- A successful `showPage` call displays the requested page and touches
nothing that the navigation claims depend on. -/
theorem showPage_ok (cfg : SurveyConfig) (s : SurveyState) (n : Int)
    (h1 : 1 ≤ n) (h2 : n ≤ cfg.totalPages) :
    ∃ s', showPage cfg s (some n) = .ok s' ∧
      s'.displayedPage = some n ∧
      s'.currentPage = s.currentPage ∧
      s'.historyStates = s.historyStates ∧
      s'.scrollPositions = s.scrollPositions ∧
      s'.store = s.store ∧
      s'.native = s.native ∧
      s'.bypassPopState = s.bypassPopState ∧
      s'.popstateAttached = s.popstateAttached ∧
      s'.consentCheckbox = s.consentCheckbox := by
  unfold showPage cancelScrollDelays applyChatbotViewState
  dsimp only
  rw [if_pos (And.intro h1 h2)]
  repeat' split
  all_goals
    refine ⟨_, rfl, ?_, ?_, ?_, ?_, ?_, ?_, ?_, ?_, ?_⟩ <;> simp

/-- The finished-sub-view refresh only writes the `finishedViewShown`
flag. -/
theorem setFinishedDialogueState_eq (cfg : SurveyConfig) (s : SurveyState) :
    ∃ b, setFinishedDialogueState cfg s = { s with finishedViewShown := b } := by
  unfold setFinishedDialogueState
  split
  · exact ⟨false, rfl⟩
  split
  · exact ⟨false, rfl⟩
  · exact ⟨true, rfl⟩

/-- `initializeHistory` leaves the current page, the display, the
listener state, the bypass flag and the consent element alone. -/
theorem initializeHistory_frame (s : SurveyState) (p : JSNum) :
    (initializeHistory s p).currentPage = s.currentPage ∧
    (initializeHistory s p).displayedPage = s.displayedPage ∧
    (initializeHistory s p).bypassPopState = s.bypassPopState ∧
    (initializeHistory s p).consentCheckbox = s.consentCheckbox ∧
    (initializeHistory s p).popstateAttached = s.popstateAttached ∧
    (initializeHistory s p).scrollPositions = s.scrollPositions := by
  unfold initializeHistory saveNavigationState
  split <;> simp

/-- Restoring the current page touches neither the consent element nor
the flags, and keeps the store. -/
theorem restorePageStep_frame (s : SurveyState) :
    (restorePageStep s).consentCheckbox = s.consentCheckbox ∧
    (restorePageStep s).bypassPopState = s.bypassPopState ∧
    (restorePageStep s).popstateAttached = s.popstateAttached ∧
    (restorePageStep s).store = s.store := by
  unfold restorePageStep
  split
  · split <;> simp
  · simp

/-- A successful history-restore step touches neither the consent
element nor the flags. -/
theorem restoreHistoryStep_frame (s s' : SurveyState)
    (h : restoreHistoryStep s = .ok s') :
    s'.consentCheckbox = s.consentCheckbox ∧
    s'.bypassPopState = s.bypassPopState ∧
    s'.popstateAttached = s.popstateAttached := by
  unfold restoreHistoryStep at h
  split at h
  · split at h
    · cases h
      exact ⟨rfl, rfl, rfl⟩
    · split at h
      · cases h
        exact ⟨rfl, rfl, rfl⟩
      · exact Except.noConfusion h
  · cases h
    exact ⟨rfl, rfl, rfl⟩

/-- A successful scroll-restore step touches neither the consent element
nor the flags. -/
theorem restoreScrollStep_frame (s s' : SurveyState)
    (h : restoreScrollStep s = .ok s') :
    s'.consentCheckbox = s.consentCheckbox ∧
    s'.bypassPopState = s.bypassPopState ∧
    s'.popstateAttached = s.popstateAttached := by
  unfold restoreScrollStep at h
  split at h
  · split at h
    · cases h
      exact ⟨rfl, rfl, rfl⟩
    · split at h
      · cases h
        exact ⟨rfl, rfl, rfl⟩
      · exact Except.noConfusion h
  · cases h
    exact ⟨rfl, rfl, rfl⟩

/-- A successful `restoreState` run leaves the consent element and the
bypass flag exactly as they were. -/
theorem restoreState_frame (cfg : SurveyConfig) (s s' : SurveyState)
    (h : restoreState cfg s = .ok s') :
    s'.consentCheckbox = s.consentCheckbox ∧
    s'.bypassPopState = s.bypassPopState := by
  unfold restoreState at h
  dsimp only at h
  obtain ⟨hc1, hb1, ha1, hs1⟩ := restorePageStep_frame s
  split at h
  · exact Except.noConfusion h
  · rename_i s2 heq2
    split at h
    · exact Except.noConfusion h
    · rename_i s3 heq3
      cases h
      obtain ⟨hc2, hb2, ha2⟩ := restoreHistoryStep_frame _ _ heq2
      obtain ⟨hc3, hb3, ha3⟩ := restoreScrollStep_frame _ _ heq3
      obtain ⟨b, hbeq⟩ := setFinishedDialogueState_eq cfg s3
      rw [hbeq]
      constructor
      · simp [hc3, hc2, hc1]
      · simp [hb3, hb2, hb1]

/-- When all three persisted values are present and well formed,
`restoreState` succeeds and installs the decoded page, history stack and
scroll map (then refreshes the finished sub-view). -/
theorem restoreState_parsed (cfg : SurveyConfig) (s : SurveyState)
    (cp hs ss : String) (P : Int) (H : List HistoryEntry) (S : List (JSNum × Int))
    (hcp : s.store.currentPage = some cp)
    (hP : parseIntJS cp = some P)
    (hhs : s.store.historyStates = some hs)
    (hH : parseHistoryJSON hs = some H)
    (hss : s.store.scrollPositions = some ss)
    (hS : parseScrollJSON ss = some S) :
    restoreState cfg s =
      .ok (setFinishedDialogueState cfg
        { s with currentPage := some P, historyStates := H, scrollPositions := S }) := by
  have hcpne : ¬ cp = "" := by
    intro he
    rw [he, show parseIntJS "" = none from rfl] at hP
    exact Option.noConfusion hP
  have hhsne : ¬ hs = "" := by
    intro he
    rw [he, show parseHistoryJSON "" = none from rfl] at hH
    exact Option.noConfusion hH
  have hssne : ¬ ss = "" := by
    intro he
    rw [he, show parseScrollJSON "" = none from rfl] at hS
    exact Option.noConfusion hS
  unfold restoreState restorePageStep restoreHistoryStep restoreScrollStep
  simp [hcp, hcpne, hP, hhs, hhsne, hH, hss, hssne, hS]

/-- `restoreState_parsed` with the finished-sub-view flag flattened into
one record update. -/
theorem restoreState_parsed_flat (cfg : SurveyConfig) (s : SurveyState)
    (cp hs ss : String) (P : Int) (H : List HistoryEntry) (S : List (JSNum × Int))
    (hcp : s.store.currentPage = some cp)
    (hP : parseIntJS cp = some P)
    (hhs : s.store.historyStates = some hs)
    (hH : parseHistoryJSON hs = some H)
    (hss : s.store.scrollPositions = some ss)
    (hS : parseScrollJSON ss = some S) :
    ∃ b, restoreState cfg s =
      .ok { s with
            currentPage := some P
            historyStates := H
            scrollPositions := S
            finishedViewShown := b } := by
  obtain ⟨b, hbeq⟩ := setFinishedDialogueState_eq cfg
    { s with currentPage := some P, historyStates := H, scrollPositions := S }
  refine ⟨b, ?_⟩
  rw [restoreState_parsed cfg s cp hs ss P H S hcp hP hhs hH hss hS, hbeq]

/-- C4: reinitializing from a persisted state whose page `P` already sits
in the persisted history stack `H` displays `P` again, appends nothing to
`H`, and the native history keeps its single entry (a replace, not a
push, and no back step). -/
theorem reload_idempotent (cfg : SurveyConfig) (store : SessionStore)
    (cp hs ss : String) (P : Int) (H : List HistoryEntry) (S : List (JSNum × Int))
    (hcp : store.currentPage = some cp)
    (hP : parseIntJS cp = some P)
    (hhs : store.historyStates = some hs)
    (hH : parseHistoryJSON hs = some H)
    (hss : store.scrollPositions = some ss)
    (hS : parseScrollJSON ss = some S)
    (hmem : H.any (fun e => jsEqNum e.page (some P)) = true)
    (h1 : 1 ≤ P) (h2 : P ≤ cfg.totalPages) :
    ∃ s', initializePage cfg store = .ok s' ∧
      s'.displayedPage = some P ∧
      s'.historyStates = H ∧
      s'.native.entries = [some ⟨some P⟩] ∧
      s'.native.backCount = 0 := by
  obtain ⟨b, hrest⟩ := restoreState_parsed_flat cfg (referenceElements (initialState store))
      cp hs ss P H S hcp hP hhs hH hss hS
  set s1 : SurveyState :=
    { referenceElements (initialState store) with
      currentPage := some P
      historyStates := H
      scrollPositions := S
      finishedViewShown := b } with hs1def
  have e1 : s1.currentPage = some P := by rw [hs1def]
  have e2 : s1.historyStates = H := by rw [hs1def]
  have e3 : s1.native.entries = [none] := by
    rw [hs1def]
    simp [referenceElements, initialState]
  have e4 : s1.native.backCount = 0 := by
    rw [hs1def]
    simp [referenceElements, initialState]
  have hne : s1.native.entries ≠ [] := by
    rw [e3]
    simp
  obtain ⟨i1, i2, i3, i4, i5, i6⟩ := initializeHistory_spec s1 s1.currentPage hne
  have hmem1 : s1.historyStates.any (fun obj => jsEqNum obj.page s1.currentPage) = true := by
    rw [e2, e1]
    exact hmem
  rw [if_pos hmem1] at i1
  have hcur2 : (initializeHistory s1 s1.currentPage).currentPage = some P := by
    rw [(initializeHistory_frame s1 s1.currentPage).1, e1]
  have hent2 : (initializeHistory s1 s1.currentPage).native.entries = [some ⟨some P⟩] := by
    rw [i2, e3, e1]
    rfl
  have hbc2 : (initializeHistory s1 s1.currentPage).native.backCount = 0 := by
    rw [i4, e4]
  obtain ⟨s3, hshow, hdisp, hcur3, hhist3, hscr3, hstore3, hnat3, _, _, _⟩ :=
    showPage_ok cfg (initializeHistory s1 s1.currentPage) P h1 h2
  unfold initializePage
  dsimp only
  rw [hrest]
  dsimp only
  rw [hcur2, hshow]
  dsimp only
  refine ⟨attachEventListeners s3, rfl, ?_, ?_, ?_, ?_⟩
  · show s3.displayedPage = some P
    exact hdisp
  · show s3.historyStates = H
    rw [hhist3, i1, e2]
  · show s3.native.entries = [some ⟨some P⟩]
    rw [hnat3]
    exact hent2
  · show s3.native.backCount = 0
    rw [hnat3]
    exact hbc2

/-- Witness for C4: a reload with persisted page 2 and history
`[{1},{2}]`. -/
theorem reload_idempotent_witness :
    ∃ s', initializePage cfgA storeReload = .ok s' ∧
      s'.displayedPage = some 2 ∧
      s'.historyStates = [⟨some 1⟩, ⟨some 2⟩] ∧
      s'.native.entries = [some ⟨some 2⟩] ∧
      s'.native.backCount = 0 :=
  reload_idempotent cfgA storeReload "2" "[\x7b\"page\":1\x7d,\x7b\"page\":2\x7d]"
    "\x7b\x7d" 2 [⟨some 1⟩, ⟨some 2⟩] [] rfl (by decide) rfl (by decide) rfl (by decide)
    (by decide) (by decide) (by decide)

/-- A successful `showPage` call never touches the consent element or
the bypass flag, whatever page was requested. -/
theorem showPage_frame (cfg : SurveyConfig) (s s' : SurveyState) (p : JSNum)
    (h : showPage cfg s p = .ok s') :
    s'.consentCheckbox = s.consentCheckbox ∧ s'.bypassPopState = s.bypassPopState := by
  unfold showPage cancelScrollDelays applyChatbotViewState at h
  dsimp only at h
  repeat' split at h
  all_goals first
    | exact Except.noConfusion h
    | (cases h; exact ⟨by simp, by simp⟩)

/-- C6 (refuted by the code): after initialization as shipped, the
`consentCheckbox` variable is still `undefined` (referenceElements only
assigns `pages`), so every dispatched popstate event makes
`handlePopState` throw a TypeError at the `consentCheckbox.checked`
read instead of running to completion. -/
theorem popstate_throws_after_initialization (cfg : SurveyConfig) (store : SessionStore)
    (ev : PopStateEvent) (s : SurveyState)
    (h : initializePage cfg store = .ok s) :
    dispatchPopState cfg s ev = .error .typeError := by
  unfold initializePage at h
  dsimp only at h
  split at h
  · exact Except.noConfusion h
  · rename_i s1 heq1
    split at h
    · exact Except.noConfusion h
    · rename_i s3 heq3
      cases h
      obtain ⟨hc1, hb1⟩ := restoreState_frame cfg _ s1 heq1
      obtain ⟨hcS, hbS⟩ := showPage_frame cfg _ s3 _ heq3
      have hconsent : s3.consentCheckbox = none := by
        rw [hcS, (initializeHistory_frame s1 s1.currentPage).2.2.2.1, hc1]
        rfl
      have hbypass : s3.bypassPopState = false := by
        rw [hbS, (initializeHistory_frame s1 s1.currentPage).2.2.1, hb1]
        rfl
      show dispatchPopState cfg (attachEventListeners s3) ev = .error .typeError
      simp [dispatchPopState, attachEventListeners, handlePopState, hbypass, hconsent]

/-- Witness for C6's failing input: the initialized fresh session, any
back/forward event. -/
theorem popstate_throws_after_initialization_witness :
    dispatchPopState cfgA initRunState evTo2 = .error .typeError :=
  popstate_throws_after_initialization cfgA storeEmpty evTo2 initRunState (by decide)

/-- The default branch of the reconciliation tail, backward direction:
capture scroll, decrement, show, persist. -/
theorem handlePopStateRest_dec (cfg : SurveyConfig) (s : SurveyState)
    (ev : PopStateEvent) (stob : HistoryEntry)
    (hterm' : jsEqNum s.currentPage (some cfg.totalPages) = false)
    (hev : ev.state = some stob)
    (hlt : jsLtNum stob.page s.currentPage = true) :
    handlePopStateRest cfg s ev =
      (showPage cfg
        { saveScrollPositions cfg s s.currentPage with
          currentPage := jsDec (saveScrollPositions cfg s s.currentPage).currentPage }
        (jsDec (saveScrollPositions cfg s s.currentPage).currentPage)).map
        saveNavigationState := by
  unfold handlePopStateRest
  rw [hev]
  simp [hterm', hlt]

/-- The default branch of the reconciliation tail, forward direction:
capture scroll, increment, show, persist. -/
theorem handlePopStateRest_inc (cfg : SurveyConfig) (s : SurveyState)
    (ev : PopStateEvent) (stob : HistoryEntry)
    (hterm' : jsEqNum s.currentPage (some cfg.totalPages) = false)
    (hev : ev.state = some stob)
    (hlt : jsLtNum stob.page s.currentPage = false) :
    handlePopStateRest cfg s ev =
      (showPage cfg
        { saveScrollPositions cfg s s.currentPage with
          currentPage := jsInc (saveScrollPositions cfg s s.currentPage).currentPage }
        (jsInc (saveScrollPositions cfg s s.currentPage).currentPage)).map
        saveNavigationState := by
  unfold handlePopStateRest
  rw [hev]
  simp [hterm', hlt]

/-- C5 (amended): under a readable consent checkbox, an external event
reaching the default branch (no pending bypass, gate and terminal
conditions false) captures scroll for the page being left (via
`saveScrollPositions`, which itself skips the chatbot page), decrements
the current page when the event's page is numerically smaller and
increments it otherwise, displays the new page and persists. In the
documented scenario the survey needs a page after page 3 (with
totalPages = 3 the first back press hits the terminal branch instead, see
the counterexample); with totalPages = 4 the two back presses display 2
then 1 with `historyStates` unchanged. -/
theorem popstate_default_branch :
    (∀ (cfg : SurveyConfig) (s : SurveyState) (ev : PopStateEvent)
        (stob : HistoryEntry) (c : Bool) (cp tp : Int),
      s.bypassPopState = false →
      s.consentCheckbox = some c →
      s.currentPage = some cp →
      ev.state = some stob →
      stob.page = some tp →
      ¬(cp = 1 ∧ tp = 2 ∧ c = false) →
      cp ≠ cfg.totalPages →
      ((tp < cp → 1 ≤ cp - 1 → cp - 1 ≤ cfg.totalPages →
        ∃ s', handlePopState cfg s ev = .ok s' ∧
          s'.currentPage = some (cp - 1) ∧
          s'.displayedPage = some (cp - 1) ∧
          s'.historyStates = s.historyStates ∧
          s'.scrollPositions = (saveScrollPositions cfg s s.currentPage).scrollPositions ∧
          s'.store.currentPage = some (jsNumToString (some (cp - 1))) ∧
          s'.store.historyStates = some (stringifyHistory s.historyStates)) ∧
       (cp ≤ tp → 1 ≤ cp + 1 → cp + 1 ≤ cfg.totalPages →
        ∃ s', handlePopState cfg s ev = .ok s' ∧
          s'.currentPage = some (cp + 1) ∧
          s'.displayedPage = some (cp + 1) ∧
          s'.historyStates = s.historyStates ∧
          s'.scrollPositions = (saveScrollPositions cfg s s.currentPage).scrollPositions ∧
          s'.store.currentPage = some (jsNumToString (some (cp + 1))) ∧
          s'.store.historyStates = some (stringifyHistory s.historyStates)))) ∧
    ((dispatchPopState cfgB scenarioState evTo2).bind (fun s1 =>
        (dispatchPopState cfgB s1 evTo1).map (fun s2 =>
          (s1.displayedPage, s2.displayedPage, s2.historyStates))) =
      .ok (some 2, some 1, [⟨some 1⟩, ⟨some 2⟩, ⟨some 3⟩])) := by
  constructor
  · intro cfg s ev stob c cp tp hb hc hp hev htp hgate hterm
    have hterm' : jsEqNum s.currentPage (some cfg.totalPages) = false := by
      rw [hp]
      simp [jsEqNum, hterm]
    have hreach : handlePopState cfg s ev = handlePopStateRest cfg s ev := by
      unfold handlePopState
      rcases eq_or_ne cp 1 with h1 | h1
      · simp only [hb, hc, hp, h1, hev, htp, jsEqNum, Bool.false_eq_true, if_false]
        simp
        intro hje hcf
        exact absurd ⟨h1, hje, hcf⟩ hgate
      · have hg1 : jsEqNum s.currentPage (some 1) = false := by
          rw [hp]
          simp [jsEqNum, h1]
        simp [hb, hc, hg1]
    obtain ⟨f1, f2, f3, f4, f5, f6, f7, f8, f9⟩ := saveScrollPositions_frame cfg s s.currentPage
    constructor
    · intro htlt hlow hhigh
      have hlt : jsLtNum stob.page s.currentPage = true := by
        rw [htp, hp]
        simp [jsLtNum, htlt]
      have hcur2 : jsDec (saveScrollPositions cfg s s.currentPage).currentPage =
          some (cp - 1) := by
        rw [f1, hp]
        rfl
      rw [hreach, handlePopStateRest_dec cfg s ev stob hterm' hev hlt, hcur2]
      obtain ⟨s3, hshow, hdisp, hcur3, hhist3, hscr3, hstore3, hnat3, _, _, _⟩ :=
        showPage_ok cfg
          { saveScrollPositions cfg s s.currentPage with currentPage := some (cp - 1) }
          (cp - 1) hlow hhigh
      rw [hshow]
      refine ⟨saveNavigationState s3, rfl, ?_, ?_, ?_, ?_, ?_, ?_⟩
      · show s3.currentPage = some (cp - 1)
        rw [hcur3]
      · show s3.displayedPage = some (cp - 1)
        exact hdisp
      · show s3.historyStates = s.historyStates
        rw [hhist3]
        exact f2
      · show s3.scrollPositions = (saveScrollPositions cfg s s.currentPage).scrollPositions
        rw [hscr3]
      · show some (jsNumToString s3.currentPage) = some (jsNumToString (some (cp - 1)))
        rw [hcur3]
      · show some (stringifyHistory s3.historyStates) = some (stringifyHistory s.historyStates)
        rw [hhist3]
        exact congrArg (fun l => some (stringifyHistory l)) f2
    · intro htge hlow hhigh
      have hlt : jsLtNum stob.page s.currentPage = false := by
        rw [htp, hp]
        simp [jsLtNum]
        omega
      have hcur2 : jsInc (saveScrollPositions cfg s s.currentPage).currentPage =
          some (cp + 1) := by
        rw [f1, hp]
        rfl
      rw [hreach, handlePopStateRest_inc cfg s ev stob hterm' hev hlt, hcur2]
      obtain ⟨s3, hshow, hdisp, hcur3, hhist3, hscr3, hstore3, hnat3, _, _, _⟩ :=
        showPage_ok cfg
          { saveScrollPositions cfg s s.currentPage with currentPage := some (cp + 1) }
          (cp + 1) hlow hhigh
      rw [hshow]
      refine ⟨saveNavigationState s3, rfl, ?_, ?_, ?_, ?_, ?_, ?_⟩
      · show s3.currentPage = some (cp + 1)
        rw [hcur3]
      · show s3.displayedPage = some (cp + 1)
        exact hdisp
      · show s3.historyStates = s.historyStates
        rw [hhist3]
        exact f2
      · show s3.scrollPositions = (saveScrollPositions cfg s s.currentPage).scrollPositions
        rw [hscr3]
      · show some (jsNumToString s3.currentPage) = some (jsNumToString (some (cp + 1)))
        rw [hcur3]
      · show some (stringifyHistory s3.historyStates) = some (stringifyHistory s.historyStates)
        rw [hhist3]
        exact congrArg (fun l => some (stringifyHistory l)) f2
  · decide

/-- Witness for C5's default branch: under cfgB (four pages) on page 3, a
back event to the entry `{2}` lands on page 2 with history unchanged. -/
theorem popstate_default_branch_witness :
    ∃ s', handlePopState cfgB scenarioState evTo2 = .ok s' ∧
      s'.currentPage = some (3 - 1) ∧
      s'.displayedPage = some (3 - 1) ∧
      s'.historyStates = scenarioState.historyStates ∧
      s'.scrollPositions =
        (saveScrollPositions cfgB scenarioState scenarioState.currentPage).scrollPositions ∧
      s'.store.currentPage = some (jsNumToString (some (3 - 1))) ∧
      s'.store.historyStates = some (stringifyHistory scenarioState.historyStates) :=
  (popstate_default_branch.1 cfgB scenarioState evTo2 ⟨some 2⟩ true 3 2
    rfl rfl rfl rfl rfl (by decide) (by decide)).1 (by decide) (by decide) (by decide)

/-- C5 counterexample: in the documented scenario itself (totalPages = 3,
on page 3, consent satisfied) the first back press does not display page
2 — it hits the terminal branch, keeps page 3 displayed and detaches the
handler. -/
theorem scenario_first_back_counterexample :
    (dispatchPopState cfgA scenarioState evTo2).map
        (fun s1 => (s1.displayedPage, s1.currentPage, s1.popstateAttached)) =
      .ok (some 3, some 3, false) := by
  decide
